import Mathlib

/-!
Shallow embedding of the sovrium validation-spec pipeline scripts:
  * Annotator   — src/scripts/add-validation-blocks.py
  * Classifier  — src/scripts/fix-expect-error-placeholders.py
  * Reconciler  — src/scripts/remove-invalid-expect-errors.py

JSON documents are modelled with explicit optional fields; Python dict key
absence is `Option.none` (or the `ErrField.absent` constructor for the
three-state `expectError` field).  Python substring tests (`needle in hay`)
are modelled by `strContains`, and `str.lower()` by an ASCII character map
`lowerStr` (the keyword matching in the source only involves ASCII text).
-/

/-- `startsWithCL needle hay` : `needle` is a prefix of `hay` (character lists). -/
def startsWithCL : List Char → List Char → Bool
  | [], _ => true
  | _ :: _, [] => false
  | a :: as, b :: bs => a == b && startsWithCL as bs

/-- `containsCL needle hay` : `needle` occurs as a contiguous substring of `hay`.
Models Python's `needle in hay`. -/
def containsCL (needle : List Char) : List Char → Bool
  | [] => startsWithCL needle []
  | b :: bs => startsWithCL needle (b :: bs) || containsCL needle bs

/-- Python `pat in hay` on strings. -/
def strContains (hay pat : String) : Bool :=
  containsCL pat.data hay.data

/-- ASCII lower-casing of one character, as Python's `str.lower` acts on the
ASCII range (the only range the scripts' keywords live in). -/
def lowerChar (c : Char) : Char :=
  if 'A' ≤ c && c ≤ 'Z' then Char.ofNat (c.toNat + 32) else c

/-- Python `s.lower()` (ASCII fragment). -/
def lowerStr (s : String) : String :=
  ⟨s.data.map lowerChar⟩

/-- `setup.fieldConfig` stub: both keys may be absent in a hand-written block. -/
structure FieldConfig where
  name : Option String
  type : Option String
  deriving Repr, DecidableEq

/-- One assertion inside a validation block.  `expectError` distinguishes an
absent key, the JSON `null` placeholder, and a concrete message string. -/
inductive ErrField where
  | absent
  | nullPlaceholder
  | msg (s : String)
  deriving Repr, DecidableEq

structure Assertion where
  description : String
  validateConfig : Bool
  expected : Option String
  expectError : ErrField
  deriving Repr, DecidableEq

/-- `validation` block: `setup.fieldConfig` may be missing (`none`). -/
structure Validation where
  setup : Option FieldConfig
  assertions : List Assertion
  deriving Repr, DecidableEq

/-- One scenario ("spec") of the `x-specs` array. -/
structure Spec where
  id : Option String
  given : Option String
  when : Option String
  then_text : Option String
  validation : Option Validation
  deriving Repr, DecidableEq

/-- A JSON document: only the `x-specs` key matters to the scripts; a document
without it is `x_specs = none`. -/
structure Document where
  x_specs : Option (List Spec)
  deriving Repr, DecidableEq

/-- `validation.get('setup', {}).get('fieldConfig', {})` of the Classifier. -/
def field_config_of (spec : Spec) : FieldConfig :=
  match spec.validation with
  | some v => v.setup.getD { name := none, type := none }
  | none => { name := none, type := none }

/-- `add_validation_to_spec` from add-validation-blocks.py: returns the
(possibly annotated) spec and whether it was updated. -/
def add_validation_to_spec (spec : Spec) : Spec × Bool :=
  if spec.validation.isSome then (spec, false)
  else
    ({ spec with
        validation := some {
          setup := some { name := some "example_field", type := some "text" },
          assertions := [{
            description := spec.then_text.getD "",
            validateConfig := true,
            expected := none,
            expectError := ErrField.nullPlaceholder }] } },
      true)

/-- `determine_error_message` from fix-expect-error-placeholders.py.
The structural-validation branch can fall through (every Python `return`
inside it is modelled by a `some`); the final two cases are the schema
check and the default message. -/
def determine_error_message (spec : Spec) (file_path : String) : String :=
  let given := lowerStr (spec.given.getD "")
  let when_text := lowerStr (spec.when.getD "")
  let then_text := lowerStr (spec.then_text.getD "")
  let field_config := field_config_of spec
  let field_type := field_config.type.getD ""
  let field_name := field_config.name.getD ""
  let _unused_reads := (spec.id.getD "", field_type)
  if strContains given "invalid" || strContains when_text "invalid" then
    if strContains file_path "action" || strContains field_name "action" then
      "action must be one of: update_field, open_url, trigger_automation"
    else if strContains file_path "format" || strContains field_name "format" then
      "must match one of the allowed format values"
    else if strContains file_path "style" || strContains field_name "style" then
      "must be a valid style option"
    else if strContains file_path "aggregation" then
      "must be one of: sum, avg, count, min, max, string_agg"
    else
      "must be one of the allowed values"
  else
    let structural : Option String :=
      if strContains then_text "validation" || strContains then_text "error" then
        if strContains then_text "pattern" || strContains then_text "format" then
          if strContains file_path "url" then some "must be a valid URL format"
          else if strContains file_path "email" then some "must be a valid email format"
          else if strContains file_path "phone" then some "must be a valid phone number format"
          else some "must match the required pattern"
        else if strContains then_text "type" then some "must be of the correct type"
        else if strContains then_text "required" then
          some "is required and cannot be null or empty"
        else if strContains then_text "minimum" || strContains then_text "maximum" then
          some "must be within the allowed range"
        else if strContains then_text "length" then some "must meet length requirements"
        else none
      else none
    match structural with
    | some m => m
    | none =>
      if strContains then_text "schema" && strContains then_text "validation" then
        "must conform to the defined schema"
      else
        "validation error"

/-- Python `assertion.get('expectError') == None`: true for an absent key and
for the explicit `null` value alike. -/
def expectErrorIsNullish : ErrField → Bool
  | ErrField.absent => true
  | ErrField.nullPlaceholder => true
  | ErrField.msg _ => false

/-- The Classifier's per-assertion step inside `fix_expect_error_null`. -/
def fix_assertion (spec : Spec) (file_path : String) (a : Assertion) : Assertion × Bool :=
  if expectErrorIsNullish a.expectError then
    ({ a with expectError := ErrField.msg (determine_error_message spec file_path) }, true)
  else (a, false)

/-- The Classifier's per-spec loop: rewrite every nullish `expectError` in the
spec's assertions, counting rewrites.  A spec without a `validation` key is
skipped (`continue`). -/
def classify_spec (file_path : String) (spec : Spec) : Spec × Nat :=
  match spec.validation with
  | none => (spec, 0)
  | some v =>
    let results := v.assertions.map (fix_assertion spec file_path)
    ({ spec with validation := some { v with assertions := results.map Prod.fst } },
      (results.filter (fun r => r.2)).length)

/-- `fix_expect_error_null` from fix-expect-error-placeholders.py, at the
document level (load/write-back modelled separately): returns the mutated
document and the count of fixed placeholders. -/
def fix_expect_error_null (file_path : String) (doc : Document) : Document × Nat :=
  match doc.x_specs with
  | none => (doc, 0)
  | some specs =>
    let results := specs.map (classify_spec file_path)
    ({ x_specs := some (results.map Prod.fst) }, (results.map Prod.snd).sum)

/-- The per-document loop of add-validation-blocks.py's `process_file`
(after a successful load): annotate every spec, count annotations. -/
def annotate_document (doc : Document) : Document × Nat :=
  match doc.x_specs with
  | none => (doc, 0)
  | some specs =>
    let results := specs.map add_validation_to_spec
    ({ x_specs := some (results.map Prod.fst) },
      (results.filter (fun r => r.2)).length)

/-- The Reconciler's per-assertion step from remove-invalid-expect-errors.py:
an assertion holding both `expected` and `expectError` keys loses
`expectError` (key presence includes a `null` value). -/
def errKeyPresent : ErrField → Bool
  | ErrField.absent => false
  | ErrField.nullPlaceholder => true
  | ErrField.msg _ => true

def reconcile_assertion (a : Assertion) : Assertion × Bool :=
  if a.expected.isSome && errKeyPresent a.expectError then
    ({ a with expectError := ErrField.absent }, true)
  else (a, false)

/-- The Reconciler's per-spec loop inside `fix_invalid_expect_errors`. -/
def reconcile_spec (spec : Spec) : Spec × Nat :=
  match spec.validation with
  | none => (spec, 0)
  | some v =>
    let results := v.assertions.map reconcile_assertion
    ({ spec with validation := some { v with assertions := results.map Prod.fst } },
      (results.filter (fun r => r.2)).length)

/-- `fix_invalid_expect_errors` from remove-invalid-expect-errors.py at the
document level. -/
def fix_invalid_expect_errors (doc : Document) : Document × Nat :=
  match doc.x_specs with
  | none => (doc, 0)
  | some specs =>
    let results := specs.map reconcile_spec
    ({ x_specs := some (results.map Prod.fst) }, (results.map Prod.snd).sum)

/-- A document load result: `Except.error e` models a raised parse/IO
exception with message `e`. -/
def LoadResult := Except String Document

/-- `process_file` of add-validation-blocks.py.  Output: the count returned
to the caller, and the error report printed on failure, modelled as the
(path, exception text) pair of the `ERROR processing {filepath}: {e}` line. -/
def process_file_annotator (filepath : String) (loaded : Except String Document) :
    Nat × Option (String × String) :=
  match loaded with
  | Except.error e => (0, some (filepath, e))
  | Except.ok doc =>
    match doc.x_specs with
    | none => (0, none)
    | some _ => ((annotate_document doc).2, none)

/-- `fix_expect_error_null`'s try/except wrapper (fix-expect-error-placeholders.py). -/
def process_file_classifier (filepath : String) (loaded : Except String Document) :
    Nat × Option (String × String) :=
  match loaded with
  | Except.error e => (0, some (filepath, e))
  | Except.ok doc => ((fix_expect_error_null filepath doc).2, none)

/-- `fix_invalid_expect_errors`'s try/except wrapper (remove-invalid-expect-errors.py). -/
def process_file_reconciler (filepath : String) (loaded : Except String Document) :
    Nat × Option (String × String) :=
  match loaded with
  | Except.error e => (0, some (filepath, e))
  | Except.ok doc => ((fix_invalid_expect_errors doc).2, none)

/-- Fetch spec `i` of a document, for stating properties. -/
def getSpec (doc : Document) (i : Nat) : Option Spec :=
  doc.x_specs.bind (fun specs => specs[i]?)

/-- Fetch assertion `j` of spec `i` of a document. -/
def getAssertion (doc : Document) (i j : Nat) : Option Assertion :=
  (getSpec doc i).bind (fun s => s.validation.bind (fun v => v.assertions[j]?))

/-! ### Concrete inputs used to settle the individual claims -/

/-- The end-to-end example scenario: its `when` text contains "invalid". -/
def c1Spec : Spec :=
  { id := some "email-fmt-1", given := some "field type is email",
    when := some "invalid email is submitted",
    then_text := some "validation error is returned",
    validation := none }

def c1Doc : Document := { x_specs := some [c1Spec] }

/-- An assertion carrying no `expectError` key at all. -/
def c2Assertion : Assertion :=
  { description := "returns the stored record", validateConfig := true,
    expected := none, expectError := ErrField.absent }

def c2Spec : Spec :=
  { id := none, given := none, when := none, then_text := none,
    validation := some { setup := none, assertions := [c2Assertion] } }

def c2Doc : Document := { x_specs := some [c2Spec] }

/-- An assertion carrying both `expected` and `expectError`. -/
def c3Assertion : Assertion :=
  { description := "value is stored", validateConfig := true,
    expected := some "ok", expectError := ErrField.msg "boom" }

def c3Spec : Spec :=
  { id := none, given := none, when := none, then_text := none,
    validation := some { setup := none, assertions := [c3Assertion] } }

/-- A document whose only assertion carries both `expected` and `expectError`. -/
def c3DocIn : Document := { x_specs := some [c3Spec] }

def c4Spec : Spec :=
  { id := some "s1", given := some "field accepts text",
    when := some "a record is created", then_text := some "value is stored",
    validation := none }

/-- A document with one unannotated scenario. -/
def c4DocIn : Document := { x_specs := some [c4Spec] }

def c7Setup : FieldConfig := { name := some "title", type := some "text" }

/-- A scenario that already holds a validation block. -/
def c7SpecIn : Spec :=
  { id := some "annotated", given := some "field accepts text",
    when := some "a record is created", then_text := some "value is stored",
    validation := some { setup := some c7Setup, assertions := [] } }

/-- Two scenarios agreeing on `given`/`when`/`then` and the setup field name,
differing in `id` and in the setup field type. -/
def c9SetupA : FieldConfig := { name := some "title", type := some "text" }

def c9SetupB : FieldConfig := { name := some "title", type := some "number" }

def c9SpecA : Spec :=
  { id := some "case-a", given := some "field has a value",
    when := some "the record is saved", then_text := some "a validation error occurs",
    validation := some { setup := some c9SetupA, assertions := [] } }

def c9SpecB : Spec :=
  { id := some "case-b", given := some "field has a value",
    when := some "the record is saved", then_text := some "a validation error occurs",
    validation := some { setup := some c9SetupB, assertions := [] } }

/-- The assertion the Annotator synthesizes for a scenario with `then` text `t`. -/
def annotatorAssertion (t : String) : Assertion :=
  { description := t, validateConfig := true, expected := none,
    expectError := ErrField.nullPlaceholder }

/-- The validation block the Annotator synthesizes for `then` text `t`. -/
def annotatorBlock (t : String) : Validation :=
  { setup := some { name := some "example_field", type := some "text" },
    assertions := [annotatorAssertion t] }

/-- A scenario whose `then` text carries only upper-case keywords. -/
def c10Spec : Spec :=
  { id := none, given := some "", when := some "",
    then_text := some "VALIDATION ERROR with FORMAT", validation := none }

/-! ### String lemmas: lower-casing preserves containment of lower-case needles -/

lemma startsWithCL_map_lower {as bs : List Char} (h : startsWithCL as bs = true) :
    startsWithCL (as.map lowerChar) (bs.map lowerChar) = true := by
  induction as generalizing bs with
  | nil => simp [startsWithCL]
  | cons a as ih =>
    cases bs with
    | nil => simp [startsWithCL] at h
    | cons b bs =>
      simp only [startsWithCL, Bool.and_eq_true, beq_iff_eq] at h
      simp only [List.map, startsWithCL, Bool.and_eq_true, beq_iff_eq]
      exact ⟨by rw [h.1], ih h.2⟩

lemma containsCL_map_lower {n h : List Char} (hc : containsCL n h = true) :
    containsCL (n.map lowerChar) (h.map lowerChar) = true := by
  induction h with
  | nil =>
    simp only [containsCL, List.map] at hc ⊢
    exact startsWithCL_map_lower hc
  | cons b bs ih =>
    simp only [containsCL, Bool.or_eq_true, List.map] at hc ⊢
    cases hc with
    | inl h1 => exact Or.inl (startsWithCL_map_lower h1)
    | inr h2 => exact Or.inr (ih h2)

/-- A needle made of lower-case characters survives lower-casing of the hay. -/
lemma strContains_lowerStr {s p : String} (hp : p.data.map lowerChar = p.data)
    (h : strContains s p = true) : strContains (lowerStr s) p = true := by
  unfold strContains lowerStr at *
  rw [← hp]
  exact containsCL_map_lower h

/-! ### Classifier branch lemmas -/

/-- Branch 1 ("invalid" present) with every subject check failing yields the
generic enumeration message. -/
lemma classifier_branch1_generic (spec : Spec) (path : String)
    (hinv : (strContains (lowerStr (spec.given.getD "")) "invalid" ||
             strContains (lowerStr (spec.when.getD "")) "invalid") = true)
    (ha : (strContains path "action" ||
           strContains ((field_config_of spec).name.getD "") "action") = false)
    (hf : (strContains path "format" ||
           strContains ((field_config_of spec).name.getD "") "format") = false)
    (hs : (strContains path "style" ||
           strContains ((field_config_of spec).name.getD "") "style") = false)
    (hg : strContains path "aggregation" = false) :
    determine_error_message spec path = "must be one of the allowed values" := by
  simp only [determine_error_message]
  simp [hinv, ha, hf, hs, hg]

/-- Branch 1 ("invalid" present) with the "action" subject check succeeding
yields the action enumeration message. -/
lemma classifier_branch1_action (spec : Spec) (path : String)
    (hinv : (strContains (lowerStr (spec.given.getD "")) "invalid" ||
             strContains (lowerStr (spec.when.getD "")) "invalid") = true)
    (ha : (strContains path "action" ||
           strContains ((field_config_of spec).name.getD "") "action") = true) :
    determine_error_message spec path =
      "action must be one of: update_field, open_url, trigger_automation" := by
  simp only [determine_error_message]
  simp [hinv, ha]

/-- Branch 1 ("invalid" present) with the "action" check failing and the
"format" check succeeding yields the format enumeration message. -/
lemma classifier_branch1_format (spec : Spec) (path : String)
    (hinv : (strContains (lowerStr (spec.given.getD "")) "invalid" ||
             strContains (lowerStr (spec.when.getD "")) "invalid") = true)
    (ha : (strContains path "action" ||
           strContains ((field_config_of spec).name.getD "") "action") = false)
    (hf : (strContains path "format" ||
           strContains ((field_config_of spec).name.getD "") "format") = true) :
    determine_error_message spec path = "must match one of the allowed format values" := by
  simp only [determine_error_message]
  simp [hinv, ha, hf]

/-! ### Traversal lemmas: how each stage acts pointwise on specs and assertions -/

/-- The Classifier rewrites assertion `(i, j)` exactly by `fix_assertion`
applied with its owning spec. -/
lemma getAssertion_classifier (path : String) (doc : Document) (i j : Nat)
    (s : Spec) (a : Assertion)
    (hs : getSpec doc i = some s) (ha : getAssertion doc i j = some a) :
    getAssertion (fix_expect_error_null path doc).1 i j =
      some (fix_assertion s path a).1 := by
  cases hx : doc.x_specs with
  | none => simp [getAssertion, getSpec, hx] at ha
  | some specs =>
    simp only [getSpec, hx, Option.some_bind] at hs
    simp only [getAssertion, getSpec, hx, Option.some_bind, hs] at ha
    simp only [fix_expect_error_null, hx, getAssertion, getSpec, Option.some_bind,
      List.map_map]
    rw [List.getElem?_map, hs]
    simp only [Option.map_some', Function.comp_apply, Option.some_bind, Function.comp]
    cases hv : s.validation with
    | none => simp [hv] at ha
    | some v =>
      simp only [hv, Option.some_bind] at ha
      simp only [classify_spec, hv, List.map_map, Option.some_bind]
      rw [List.getElem?_map, ha]
      rfl

/-- Every assertion of the Classifier's output comes from an input assertion
via `fix_assertion` with its owning spec. -/
lemma getAssertion_classifier_rev (path : String) (doc : Document) (i j : Nat)
    (b : Assertion)
    (hb : getAssertion (fix_expect_error_null path doc).1 i j = some b) :
    ∃ s a, getSpec doc i = some s ∧ getAssertion doc i j = some a ∧
      b = (fix_assertion s path a).1 := by
  cases hx : doc.x_specs with
  | none => simp [getAssertion, getSpec, fix_expect_error_null, hx] at hb
  | some specs =>
    simp only [fix_expect_error_null, hx, getAssertion, getSpec, Option.some_bind,
      List.map_map] at hb
    rw [List.getElem?_map] at hb
    cases hsi : specs[i]? with
    | none => rw [hsi] at hb; simp at hb
    | some s =>
      rw [hsi] at hb
      simp only [Option.map_some', Function.comp_apply, Option.some_bind, Function.comp] at hb
      refine ⟨s, ?_⟩
      cases hv : s.validation with
      | none => simp only [classify_spec, hv, Option.none_bind] at hb; simp [hv] at hb
      | some v =>
        simp only [classify_spec, hv, Option.some_bind, List.map_map] at hb
        rw [List.getElem?_map] at hb
        cases haj : v.assertions[j]? with
        | none => rw [haj] at hb; simp at hb
        | some a =>
          rw [haj] at hb
          simp only [Option.map_some', Function.comp_apply, Option.some_inj, Function.comp] at hb
          refine ⟨a, ?_, ?_, hb.symm⟩
          · simp [getSpec, hx, hsi]
          · simp [getAssertion, getSpec, hx, hsi, hv, haj]

/-- The Reconciler rewrites assertion `(i, j)` exactly by `reconcile_assertion`. -/
lemma getAssertion_reconciler (doc : Document) (i j : Nat) (a : Assertion)
    (ha : getAssertion doc i j = some a) :
    getAssertion (fix_invalid_expect_errors doc).1 i j =
      some (reconcile_assertion a).1 := by
  cases hx : doc.x_specs with
  | none => simp [getAssertion, getSpec, hx] at ha
  | some specs =>
    simp only [getAssertion, getSpec, hx, Option.some_bind] at ha
    simp only [fix_invalid_expect_errors, hx, getAssertion, getSpec, Option.some_bind,
      List.map_map]
    rw [List.getElem?_map]
    cases hsi : specs[i]? with
    | none => rw [hsi] at ha; simp at ha
    | some s =>
      rw [hsi] at ha
      simp only [Option.some_bind] at ha
      simp only [Option.map_some', Function.comp_apply, Option.some_bind, Function.comp]
      cases hv : s.validation with
      | none => simp [hv] at ha
      | some v =>
        simp only [hv, Option.some_bind] at ha
        simp only [reconcile_spec, hv, List.map_map, Option.some_bind]
        rw [List.getElem?_map, ha]
        rfl

/-- Every assertion of the Reconciler's output comes from an input assertion
via `reconcile_assertion`. -/
lemma getAssertion_reconciler_rev (doc : Document) (i j : Nat) (b : Assertion)
    (hb : getAssertion (fix_invalid_expect_errors doc).1 i j = some b) :
    ∃ a, getAssertion doc i j = some a ∧ b = (reconcile_assertion a).1 := by
  cases hx : doc.x_specs with
  | none => simp [getAssertion, getSpec, fix_invalid_expect_errors, hx] at hb
  | some specs =>
    simp only [fix_invalid_expect_errors, hx, getAssertion, getSpec, Option.some_bind,
      List.map_map] at hb
    rw [List.getElem?_map] at hb
    cases hsi : specs[i]? with
    | none => rw [hsi] at hb; simp at hb
    | some s =>
      rw [hsi] at hb
      simp only [Option.map_some', Function.comp_apply, Option.some_bind, Function.comp] at hb
      cases hv : s.validation with
      | none => simp only [reconcile_spec, hv, Option.none_bind] at hb; simp [hv] at hb
      | some v =>
        simp only [reconcile_spec, hv, Option.some_bind, List.map_map] at hb
        rw [List.getElem?_map] at hb
        cases haj : v.assertions[j]? with
        | none => rw [haj] at hb; simp at hb
        | some a =>
          rw [haj] at hb
          simp only [Option.map_some', Function.comp_apply, Option.some_inj, Function.comp] at hb
          refine ⟨a, ?_, hb.symm⟩
          simp [getAssertion, getSpec, hx, hsi, hv, haj]

/-- Every spec of the Annotator's output has a validation block. -/
lemma getSpec_annotate_isSome (doc : Document) (i : Nat) (s : Spec)
    (hs : getSpec (annotate_document doc).1 i = some s) :
    s.validation.isSome = true := by
  cases hx : doc.x_specs with
  | none => simp [getSpec, annotate_document, hx] at hs
  | some specs =>
    simp only [annotate_document, hx, getSpec, Option.some_bind, List.map_map] at hs
    rw [List.getElem?_map] at hs
    cases hsi : specs[i]? with
    | none => rw [hsi] at hs; simp at hs
    | some s0 =>
      rw [hsi] at hs
      simp only [Option.map_some', Function.comp_apply, Option.some_inj, Function.comp] at hs
      subst hs
      unfold add_validation_to_spec
      cases hv : s0.validation with
      | none => simp [hv]
      | some v => simp [hv]

/-- Every spec of the Classifier's output comes from an input spec via
`classify_spec`. -/
lemma getSpec_classifier_rev (path : String) (doc : Document) (i : Nat) (t : Spec)
    (ht : getSpec (fix_expect_error_null path doc).1 i = some t) :
    ∃ s, getSpec doc i = some s ∧ t = (classify_spec path s).1 := by
  cases hx : doc.x_specs with
  | none => simp [getSpec, fix_expect_error_null, hx] at ht
  | some specs =>
    simp only [fix_expect_error_null, hx, getSpec, Option.some_bind, List.map_map] at ht
    rw [List.getElem?_map] at ht
    cases hsi : specs[i]? with
    | none => rw [hsi] at ht; simp at ht
    | some s =>
      rw [hsi] at ht
      simp only [Option.map_some', Function.comp_apply, Option.some_inj, Function.comp] at ht
      exact ⟨s, by simp [getSpec, hx, hsi], ht.symm⟩

/-- `classify_spec` preserves the presence of a validation block. -/
lemma classify_spec_validation_isSome (path : String) (s : Spec)
    (h : s.validation.isSome = true) :
    (classify_spec path s).1.validation.isSome = true := by
  cases hv : s.validation with
  | none => rw [hv] at h; exact absurd h (by simp)
  | some v => simp [classify_spec, hv]

/-! ### Claim theorems -/

/-- Claim C5: for every scenario whose `given` text contains "invalid" and
every file path containing "action", the Classifier produces exactly the
action enumeration message. -/
theorem c5_action_specialization (spec : Spec) (path : String)
    (hg : strContains (spec.given.getD "") "invalid" = true)
    (hp : strContains path "action" = true) :
    determine_error_message spec path =
      "action must be one of: update_field, open_url, trigger_automation" := by
  apply classifier_branch1_action
  · have h1 := strContains_lowerStr (p := "invalid") (by decide) hg
    simp [h1]
  · simp [hp]

/-- Witness for C5 at a concrete scenario and path. -/
theorem c5_witness :
    determine_error_message
      { id := none, given := some "user provides invalid action", when := none,
        then_text := some "error is returned", validation := none }
      "specs/app/tables/action.schema.json" =
      "action must be one of: update_field, open_url, trigger_automation" :=
  c5_action_specialization _ _ (by decide) (by decide)

/-- Claim C6: for the scenario with given "field has invalid format value"
and then "should return validation error" (annotated by the Annotator), in
a file path containing "format" but not "action", the Classifier answers
with the enumeration branch's format message, not a structural-branch
message, because the "invalid" branch is evaluated first. -/
theorem c6_priority_ordering (idv w : Option String) (path : String)
    (hf : strContains path "format" = true)
    (ha : strContains path "action" = false) :
    determine_error_message
      ((add_validation_to_spec
        { id := idv, given := some "field has invalid format value", when := w,
          then_text := some "should return validation error",
          validation := none }).1) path =
      "must match one of the allowed format values" := by
  have hred : (add_validation_to_spec
      { id := idv, given := some "field has invalid format value", when := w,
        then_text := some "should return validation error", validation := none }).1 =
      { id := idv, given := some "field has invalid format value", when := w,
        then_text := some "should return validation error",
        validation := some (annotatorBlock "should return validation error") } := rfl
  rw [hred]
  apply classifier_branch1_format
  · have h1 : strContains (lowerStr "field has invalid format value") "invalid" = true := by
      decide
    simp [h1]
  · rw [ha]
    simp only [field_config_of]
    decide
  · simp [hf]

/-- Witness for C6 at a concrete scenario and path. -/
theorem c6_witness :
    determine_error_message
      ((add_validation_to_spec
        { id := some "fmt-1", given := some "field has invalid format value",
          when := some "the value is checked",
          then_text := some "should return validation error",
          validation := none }).1) "specs/app/tables/format.schema.json" =
      "must match one of the allowed format values" :=
  c6_priority_ordering (some "fmt-1") (some "the value is checked")
    "specs/app/tables/format.schema.json" (by decide) (by decide)

/-- Claim C7: the Annotator's per-scenario transform is idempotent — a second
application returns the once-annotated scenario unchanged and reports no
mutation — and a scenario already holding a validation block is returned
unchanged with the updated flag false. -/
theorem c7_annotator_idempotent (s : Spec) :
    add_validation_to_spec (add_validation_to_spec s).1 =
      ((add_validation_to_spec s).1, false) ∧
    (s.validation.isSome = true → add_validation_to_spec s = (s, false)) := by
  constructor
  · cases hv : s.validation with
    | some v => simp [add_validation_to_spec, hv]
    | none => simp [add_validation_to_spec, hv]
  · intro h
    simp [add_validation_to_spec, h]

/-- Witness for C7 at a concrete already-annotated scenario. -/
theorem c7_witness :
    c7SpecIn.validation.isSome = true ∧ add_validation_to_spec c7SpecIn = (c7SpecIn, false) :=
  ⟨by decide, (c7_annotator_idempotent c7SpecIn).2 (by decide)⟩

/-- Claim C8: a document whose load raises is handled by each stage's
per-file function: the error is reported together with the offending path
and the call returns zero scenarios processed instead of propagating. -/
theorem c8_load_failure_handled (path e : String) :
    process_file_annotator path (Except.error e) = (0, some (path, e)) ∧
    process_file_classifier path (Except.error e) = (0, some (path, e)) ∧
    process_file_reconciler path (Except.error e) = (0, some (path, e)) :=
  ⟨rfl, rfl, rfl⟩

/-- Claim C9: the Classifier's message function ignores the scenario id and
the setup field type — two inputs agreeing on `given`, `when`, `then`, the
file path, and the setup field name get the same message. -/
theorem c9_id_type_insensitive (s1 s2 : Spec) (path : String)
    (hg : s1.given = s2.given) (hw : s1.when = s2.when)
    (ht : s1.then_text = s2.then_text)
    (hn : (field_config_of s1).name = (field_config_of s2).name) :
    determine_error_message s1 path = determine_error_message s2 path := by
  simp only [determine_error_message]
  rw [hg, hw, ht, hn]

/-- Witness for C9: two scenarios differing in id and field type. -/
theorem c9_witness :
    determine_error_message c9SpecA "specs/app/tables/email.schema.json" =
      determine_error_message c9SpecB "specs/app/tables/email.schema.json" :=
  c9_id_type_insensitive c9SpecA c9SpecB "specs/app/tables/email.schema.json"
    rfl rfl rfl rfl

/-- Claim C10: keyword matching is case-insensitive on the scenario text but
case-sensitive on the file path — with `then` = "VALIDATION ERROR with
FORMAT", the path "…/Email.schema.json" yields the generic pattern message,
while the lower-case path "…/email.schema.json" yields the email message. -/
theorem c10_path_case_sensitive :
    determine_error_message c10Spec "specs/app/tables/Email.schema.json" =
      "must match the required pattern" ∧
    determine_error_message c10Spec "specs/app/tables/email.schema.json" =
      "must be a valid email format" :=
  ⟨rfl, rfl⟩

/-- Claim C1 (counterexample): on the exact scenario of the claim, in file
path "specs/app/tables/email.schema.json" (mentioning only the rule keyword
"email"), the Annotator + Classifier pipeline writes
"must be one of the allowed values", not "must be a valid email format":
the `when` text contains "invalid", so the enumeration branch fires first. -/
theorem c1_counterexample :
    (getAssertion (fix_expect_error_null "specs/app/tables/email.schema.json"
        (annotate_document c1Doc).1).1 0 0).map Assertion.expectError =
      some (ErrField.msg "must be one of the allowed values") ∧
    ErrField.msg "must be one of the allowed values" ≠
      ErrField.msg "must be a valid email format" :=
  ⟨rfl, by decide⟩

/-- Claim C1 (amended): for the claim's scenario in any file path mentioning
"email" and none of the enumeration keywords "action", "format", "style",
"aggregation", the pipeline's synthesized assertion gets `expectError`
"must be one of the allowed values": the `when` text contains "invalid", so
the enumeration branch wins over the email-format rule. -/
theorem c1_amended (path : String)
    (_hemail : strContains path "email" = true)
    (haction : strContains path "action" = false)
    (hformat : strContains path "format" = false)
    (hstyle : strContains path "style" = false)
    (haggr : strContains path "aggregation" = false) :
    (getAssertion (fix_expect_error_null path (annotate_document c1Doc).1).1 0 0).map
        Assertion.expectError =
      some (ErrField.msg "must be one of the allowed values") := by
  have hs : getSpec (annotate_document c1Doc).1 0 =
      some (add_validation_to_spec c1Spec).1 := rfl
  have ha : getAssertion (annotate_document c1Doc).1 0 0 =
      some (annotatorAssertion "validation error is returned") := rfl
  have hmsg : determine_error_message (add_validation_to_spec c1Spec).1 path =
      "must be one of the allowed values" := by
    apply classifier_branch1_generic
    · decide
    · rw [haction]; decide
    · rw [hformat]; decide
    · rw [hstyle]; decide
    · exact haggr
  rw [getAssertion_classifier path (annotate_document c1Doc).1 0 0 _ _ hs ha]
  simp [fix_assertion, annotatorAssertion, expectErrorIsNullish, hmsg]

/-- Witness for the amended C1 at the concrete email path. -/
theorem c1_amended_witness :
    (getAssertion (fix_expect_error_null "specs/app/tables/email.schema.json"
        (annotate_document c1Doc).1).1 0 0).map Assertion.expectError =
      some (ErrField.msg "must be one of the allowed values") :=
  c1_amended "specs/app/tables/email.schema.json" (by decide) (by decide) (by decide)
    (by decide) (by decide)

/-- Claim C2 (counterexample): an assertion holding no `expectError` key at
all is not left unchanged — Python's `assertion.get('expectError') == None`
also matches the absent key, so the Classifier adds a message to it. -/
theorem c2_counterexample :
    getAssertion (fix_expect_error_null "specs/app/tables/x.schema.json" c2Doc).1 0 0 =
      some { c2Assertion with expectError := ErrField.msg "validation error" } ∧
    ({ c2Assertion with expectError := ErrField.msg "validation error" } : Assertion) ≠
      c2Assertion :=
  ⟨rfl, by decide⟩

/-- Claim C2 (amended): the Classifier leaves unchanged every assertion
holding a concrete message, and rewrites exactly those whose `expectError`
is the explicit null placeholder or whose `expectError` key is absent
(Python's `.get` conflates the two), writing the message inferred from the
owning scenario. -/
theorem c2_classifier_touch_set (path : String) (doc : Document) (i j : Nat)
    (s : Spec) (a : Assertion)
    (hs : getSpec doc i = some s) (ha : getAssertion doc i j = some a) :
    (∀ m, a.expectError = ErrField.msg m →
      getAssertion (fix_expect_error_null path doc).1 i j = some a) ∧
    (expectErrorIsNullish a.expectError = true →
      getAssertion (fix_expect_error_null path doc).1 i j =
        some { a with expectError := ErrField.msg (determine_error_message s path) }) := by
  have key := getAssertion_classifier path doc i j s a hs ha
  constructor
  · intro m hm
    rw [key]
    simp [fix_assertion, hm, expectErrorIsNullish]
  · intro hn
    rw [key]
    simp [fix_assertion, hn]

/-- Witness for the amended C2: the key-less assertion of `c2Doc` is
rewritten with the inferred message. -/
theorem c2_amended_witness :
    getAssertion (fix_expect_error_null "specs/app/tables/x.schema.json" c2Doc).1 0 0 =
      some { c2Assertion with expectError := ErrField.msg "validation error" } := by
  have h := (c2_classifier_touch_set "specs/app/tables/x.schema.json" c2Doc 0 0 c2Spec
    c2Assertion rfl rfl).2 rfl
  exact h

/-- Claim C3: after the Reconciler no assertion carries both `expected` and
an `expectError` key, and an assertion that carried both retains `expected`
and loses `expectError`. -/
theorem c3_reconciler_mutual_exclusivity (doc : Document) (i j : Nat) :
    (∀ b, getAssertion (fix_invalid_expect_errors doc).1 i j = some b →
      ¬(b.expected.isSome = true ∧ errKeyPresent b.expectError = true)) ∧
    (∀ a, getAssertion doc i j = some a →
      a.expected.isSome = true → errKeyPresent a.expectError = true →
      getAssertion (fix_invalid_expect_errors doc).1 i j =
        some { a with expectError := ErrField.absent }) := by
  constructor
  · rintro b hb ⟨he, hp⟩
    obtain ⟨a, ha, rfl⟩ := getAssertion_reconciler_rev doc i j b hb
    by_cases hc : (a.expected.isSome && errKeyPresent a.expectError) = true
    · rw [show (reconcile_assertion a).1 = { a with expectError := ErrField.absent } from by
        simp [reconcile_assertion, hc]] at hp
      simp [errKeyPresent] at hp
    · rw [show (reconcile_assertion a).1 = a from by simp [reconcile_assertion, hc]] at he hp
      exact hc (by simp [he, hp])
  · intro a ha he hp
    rw [getAssertion_reconciler doc i j a ha]
    simp [reconcile_assertion, he, hp]

/-- Witness for C3: the both-keys assertion of `c3DocIn` loses `expectError`. -/
theorem c3_witness :
    getAssertion (fix_invalid_expect_errors c3DocIn).1 0 0 =
      some { c3Assertion with expectError := ErrField.absent } :=
  (c3_reconciler_mutual_exclusivity c3DocIn 0 0).2 c3Assertion rfl rfl rfl

/-- Claim C4: for every document holding an `x-specs` key, after the
Annotator and then the Classifier every scenario has a validation block and
no assertion's `expectError` is the null placeholder. -/
theorem c4_coverage (doc : Document) (specs : List Spec) (path : String)
    (_hx : doc.x_specs = some specs) :
    (∀ i t, getSpec (fix_expect_error_null path (annotate_document doc).1).1 i = some t →
      t.validation.isSome = true) ∧
    (∀ i j b,
      getAssertion (fix_expect_error_null path (annotate_document doc).1).1 i j = some b →
      b.expectError ≠ ErrField.nullPlaceholder) := by
  constructor
  · intro i t ht
    obtain ⟨s, hsp, rfl⟩ := getSpec_classifier_rev path _ i t ht
    exact classify_spec_validation_isSome path s (getSpec_annotate_isSome doc i s hsp)
  · intro i j b hb
    obtain ⟨s, a, hsp, ha, rfl⟩ := getAssertion_classifier_rev path _ i j b hb
    cases hae : a.expectError with
    | absent => simp [fix_assertion, expectErrorIsNullish, hae]
    | nullPlaceholder => simp [fix_assertion, expectErrorIsNullish, hae]
    | msg m => simp [fix_assertion, expectErrorIsNullish, hae]

/-- Witness for C4: the placeholder of `c4DocIn`'s scenario is resolved. -/
theorem c4_witness :
    ({ description := "value is stored", validateConfig := true, expected := none,
       expectError := ErrField.msg "validation error" } : Assertion).expectError ≠
      ErrField.nullPlaceholder :=
  (c4_coverage c4DocIn [c4Spec] "specs/app/tables/name.schema.json" rfl).2 0 0 _ rfl
